import Mathlib

/-! Verification of the whisper-api model registry and transcription handler
(src/app.py) against its specification.

Shallow embedding conventions:
* A loaded model instance is opaque; it is represented by a `Nat` identity.
* The external load capability `whisper.load_model` is an oracle
  `lm : String → Nat → Option Nat`: given the identifier and the global
  invocation index it returns `some instance` when the load succeeds and
  `none` when the engine raises.  Indexing by the invocation count lets two
  distinct invocations return distinct instances, so any "same instance"
  result below is a consequence of caching, never of the oracle being
  constant.
* `load_whisper_model` in src/app.py runs its whole body under the single
  process-wide `model_lock` (acquired on line 25, covering the cache check,
  the load and the insert), so every concurrent execution is equivalent to
  some serialization of atomic registry calls; the embedding passes the
  registry state explicitly and `runCalls` runs one such serialization.
* The handler's interactions with the outside world (saving the upload,
  running inference, removing the temp file) are oracles in `HandlerEnv`.
-/

/-- Embedding of `ALLOWED_MODELS` (src/app.py line 11). -/
def ALLOWED_MODELS : List String :=
  ["tiny.en", "tiny", "base.en", "base", "small.en", "small",
   "medium.en", "medium", "large", "large-v1", "large-v2", "large-v3"]

/-- Embedding of `DEFAULT_MODEL` (src/app.py line 12). -/
def DEFAULT_MODEL : String := "base"

/-- Registry state: the process-global dict `loaded_models` (src/app.py
line 17), modelled as an association list with the newest entry first, plus
`loadCalls`, an instrumentation counter of how many times the external load
capability `whisper.load_model` has been invoked so far. -/
structure RegState where
  loaded_models : List (String × Nat)
  loadCalls : Nat
deriving DecidableEq

/-- Embedding of `load_whisper_model` (src/app.py lines 20-40).  The Python
body runs entirely under `model_lock`; explicit state passing models that
single critical section.  Line 26: cache hit returns the stored instance and
changes nothing.  Lines 30-37: cache miss invokes `whisper.load_model`
(counted by bumping `loadCalls`) and on success stores and returns the new
instance.  Lines 38-40: if the engine raises, the `except` branch logs and
returns `None`, inserting nothing. -/
def load_whisper_model (lm : String → Nat → Option Nat) (model_name : String)
    (st : RegState) : Option Nat × RegState :=
  match st.loaded_models.lookup model_name with
  | some m => (some m, st)
  | none =>
    match lm model_name st.loadCalls with
    | some inst =>
      (some inst, ⟨(model_name, inst) :: st.loaded_models, st.loadCalls + 1⟩)
    | none => (none, ⟨st.loaded_models, st.loadCalls + 1⟩)

/-- Run a sequence of registry requests in order, returning every caller's
result and the final registry state.  Because `model_lock` is held across
the whole body of `load_whisper_model`, any concurrent execution of the
registry is equivalent to running one of these serializations. -/
def runCalls (lm : String → Nat → Option Nat) :
    List String → RegState → List (Option Nat) × RegState
  | [], st => ([], st)
  | n :: ns, st =>
    let p := load_whisper_model lm n st
    let q := runCalls lm ns p.2
    (p.1 :: q.1, q.2)

/-- Embedding of the model-name selection in `transcribe_audio` (src/app.py
lines 46-53): `request.form.get('model_name', DEFAULT_MODEL)` (an absent
field yields the default), then fall back to `DEFAULT_MODEL` when the
requested name is not in `ALLOWED_MODELS`. -/
def select_model (model_name : Option String) : String :=
  let requested_model_name := model_name.getD DEFAULT_MODEL
  if requested_model_name ∉ ALLOWED_MODELS then DEFAULT_MODEL
  else requested_model_name

/-- Incoming `/transcribe` request: the optional `model_name` form field and
the optional `audio_file` part, the latter carrying its filename. -/
structure TranscribeRequest where
  model_name : Option String
  audio_file : Option String
deriving DecidableEq

/-- Oracles for the handler's interactions with the outside world.
`lm` is the load capability; `tmpPath` is the unique name that
`tempfile.NamedTemporaryFile` picks; `saveExc = some e` means
`audio_file.save(temp_audio)` (src/app.py line 76) raises with message `e`;
`transcribe inst path` is the outcome of `model.transcribe(path)["text"]`
(line 83), `Except.error e` meaning the call raises with message `e`;
`removeRaises` means `os.remove` (line 99) raises an `OSError`. -/
structure HandlerEnv where
  lm : String → Nat → Option Nat
  tmpPath : String
  saveExc : Option String
  transcribe : Nat → String → Except String String
  removeRaises : Bool

/-- Response body produced by `jsonify` in the handler: either an error
object or the success object with `text` and `model_used`. -/
inductive RespBody where
  | err (msg : String) : RespBody
  | ok (text : String) (model_used : String) : RespBody
deriving DecidableEq

/-- Observable outcome of one `/transcribe` request: HTTP status, JSON body,
whether a temporary file created for this request still exists on disk after
the handler (including its `finally` block) finished, and the registry state
afterwards. -/
structure HandlerResult where
  status : Nat
  body : RespBody
  tempFileRemains : Bool
  reg : RegState
deriving DecidableEq

/-- Embedding of the `transcribe_audio` handler (src/app.py lines 42-102),
branch by branch in source order:
* lines 46-53: select the model name (`select_model`);
* line 57: call the registry;
* lines 59-60: model is `None` → 503 with the "not available or failed to
  load" error; no temp file was created;
* lines 62-64: no `audio_file` part → 400; no temp file was created;
* lines 66-70: empty filename → 400; no temp file was created;
* lines 73-77: `tempfile.NamedTemporaryFile(delete=False, ...)` creates the
  temp file on disk, then `audio_file.save(temp_audio)` runs, and only after
  it `temp_audio_path = temp_audio.name` is assigned.  If `save` raises, the
  generic `except` (lines 92-94) yields a 500 carrying `str(e)`, and in the
  `finally` block (line 97) `temp_audio_path` is still `None`, so the
  removal is skipped and the `delete=False` file remains on disk:
  `tempFileRemains = true` on this path;
* lines 81-94: inference; if `model.transcribe` raises, 500 carrying
  `str(e)`; on success, 200 with `text` and `model_used`;
* lines 96-102: on both of those paths `temp_audio_path` is set and the file
  exists, so `os.remove` runs; it removes the file unless it raises an
  `OSError`, which is logged only and leaves the response unchanged, so the
  file remains exactly when `removeRaises` holds. -/
def transcribe_audio (env : HandlerEnv) (req : TranscribeRequest)
    (st : RegState) : HandlerResult :=
  let actual_model_name := select_model req.model_name
  let p := load_whisper_model env.lm actual_model_name st
  match p.1 with
  | none =>
    ⟨503,
     RespBody.err ("Whisper model '" ++ actual_model_name ++
       "' is not available or failed to load."),
     false, p.2⟩
  | some model =>
    match req.audio_file with
    | none => ⟨400, RespBody.err "No audio file part in the request", false, p.2⟩
    | some filename =>
      if filename = "" then
        ⟨400, RespBody.err "No selected audio file (empty filename)", false, p.2⟩
      else
        match env.saveExc with
        | some e =>
          ⟨500,
           RespBody.err ("An internal error occurred during transcription: " ++ e),
           true, p.2⟩
        | none =>
          match env.transcribe model env.tmpPath with
          | Except.error e =>
            ⟨500,
             RespBody.err ("An internal error occurred during transcription: " ++ e),
             env.removeRaises, p.2⟩
          | Except.ok text =>
            ⟨200, RespBody.ok text actual_model_name, env.removeRaises, p.2⟩

/-- Spec-level notion used by the claims: string `s` mentions `pat` when
`pat` occurs verbatim inside `s`. -/
def mentions (s pat : String) : Prop :=
  ∃ pre post : String, s = pre ++ pat ++ post

/-- Mapping invariant: every cached entry was produced by a successful
invocation of the load capability. -/
def goodMapping (lm : String → Nat → Option Nat) (l : List (String × Nat)) : Prop :=
  ∀ p ∈ l, ∃ k, lm p.1 k = some p.2

/-- Load oracle that succeeds, giving a distinct instance per invocation. -/
def lmSeq : String → Nat → Option Nat := fun _ k => some (100 + k)

/-- Load oracle for an engine whose every load attempt raises. -/
def lmFail : String → Nat → Option Nat := fun _ _ => none

/-- Handler environment whose load capability always fails. -/
def envFail : HandlerEnv :=
  ⟨lmFail, "/tmp/upload.wav", none, fun _ _ => Except.ok "hi", false⟩

/-- Handler environment where everything succeeds. -/
def envOk : HandlerEnv :=
  ⟨lmSeq, "/tmp/upload.wav", none, fun _ _ => Except.ok "hello", false⟩

/-- Handler environment where `audio_file.save` raises ("disk full"). -/
def envSaveFail : HandlerEnv :=
  ⟨lmSeq, "/tmp/upload.wav", some "disk full", fun _ _ => Except.ok "hi", false⟩

/-- Equation lemma: a cache hit returns the stored instance and leaves the
registry state unchanged. -/
theorem load_hit (lm : String → Nat → Option Nat) (name : String)
    (st : RegState) (m : Nat) (h : st.loaded_models.lookup name = some m) :
    load_whisper_model lm name st = (some m, st) := by
  simp [load_whisper_model, h]

/-- Equation lemma: a cache miss whose load succeeds returns the fresh
instance and inserts it. -/
theorem load_miss_ok (lm : String → Nat → Option Nat) (name : String)
    (st : RegState) (inst : Nat) (h1 : st.loaded_models.lookup name = none)
    (h2 : lm name st.loadCalls = some inst) :
    load_whisper_model lm name st =
      (some inst, ⟨(name, inst) :: st.loaded_models, st.loadCalls + 1⟩) := by
  simp [load_whisper_model, h1, h2]

/-- Equation lemma: a cache miss whose load raises returns `none`, inserts
nothing, and only bumps the invocation counter. -/
theorem load_miss_fail (lm : String → Nat → Option Nat) (name : String)
    (st : RegState) (h1 : st.loaded_models.lookup name = none)
    (h2 : lm name st.loadCalls = none) :
    load_whisper_model lm name st = (none, ⟨st.loaded_models, st.loadCalls + 1⟩) := by
  simp [load_whisper_model, h1, h2]

/-- C1: for an identifier not yet cached whose first load succeeds, two
successive registry fetches return the identical instance both times, the
second call does not change the registry state, and the load capability is
invoked exactly once across both calls. -/
theorem registry_idempotent_caching (lm : String → Nat → Option Nat)
    (name : String) (st : RegState) (m : Nat)
    (h1 : st.loaded_models.lookup name = none)
    (h2 : lm name st.loadCalls = some m) :
    (load_whisper_model lm name st).1 = some m ∧
    (load_whisper_model lm name (load_whisper_model lm name st).2).1 = some m ∧
    (load_whisper_model lm name (load_whisper_model lm name st).2).2 =
      (load_whisper_model lm name st).2 ∧
    (load_whisper_model lm name (load_whisper_model lm name st).2).2.loadCalls =
      st.loadCalls + 1 := by
  have e1 := load_miss_ok lm name st m h1 h2
  have e2 : load_whisper_model lm name
      (⟨(name, m) :: st.loaded_models, st.loadCalls + 1⟩ : RegState) =
      (some m, ⟨(name, m) :: st.loaded_models, st.loadCalls + 1⟩) :=
    load_hit _ _ _ _ (by simp [List.lookup])
  rw [e1]
  simp [e2]

/-- Witness for C1 at a concrete input: oracle `lmSeq` hands out a distinct
instance on every invocation, yet both fetches of "base" return instance
100 and only one invocation happened. -/
theorem registry_idempotent_caching_witness :
    (load_whisper_model lmSeq "base" ⟨[], 0⟩).1 = some 100 ∧
    (load_whisper_model lmSeq "base" (load_whisper_model lmSeq "base" ⟨[], 0⟩).2).1 =
      some 100 ∧
    (load_whisper_model lmSeq "base" (load_whisper_model lmSeq "base" ⟨[], 0⟩).2).2 =
      (load_whisper_model lmSeq "base" ⟨[], 0⟩).2 ∧
    (load_whisper_model lmSeq "base"
      (load_whisper_model lmSeq "base" ⟨[], 0⟩).2).2.loadCalls = 0 + 1 :=
  registry_idempotent_caching lmSeq "base" ⟨[], 0⟩ 100 rfl rfl

/-- One registry call preserves the invariant that every cached entry came
from a successful invocation of the load capability. -/
theorem goodMapping_load (lm : String → Nat → Option Nat) (name : String)
    (st : RegState) (h : goodMapping lm st.loaded_models) :
    goodMapping lm (load_whisper_model lm name st).2.loaded_models := by
  cases hl : st.loaded_models.lookup name with
  | some m => rw [load_hit lm name st m hl]; exact h
  | none =>
    cases hlm : lm name st.loadCalls with
    | some inst =>
      rw [load_miss_ok lm name st inst hl hlm]
      intro p hp
      rcases List.mem_cons.mp hp with h1 | h2
      · exact ⟨st.loadCalls, by rw [h1]; exact hlm⟩
      · exact h p h2
    | none =>
      rw [load_miss_fail lm name st hl hlm]
      exact h

/-- Any serialized sequence of registry calls preserves the invariant. -/
theorem goodMapping_runCalls (lm : String → Nat → Option Nat)
    (names : List String) : ∀ st : RegState, goodMapping lm st.loaded_models →
    goodMapping lm (runCalls lm names st).2.loaded_models := by
  induction names with
  | nil => intro st h; simpa [runCalls] using h
  | cons n ns ih =>
    intro st h
    simp only [runCalls]
    exact ih _ (goodMapping_load lm n st h)

/-- C2: a failed load returns `none` and leaves the mapping exactly as it
was, a subsequent call with the same identifier performs a fresh load
attempt (its outcome is whatever the next invocation of the load capability
returns), and, from a fresh process, the mapping only ever contains entries
whose load succeeded. -/
theorem registry_no_entry_on_failure (lm : String → Nat → Option Nat)
    (name : String) (st : RegState)
    (h1 : st.loaded_models.lookup name = none)
    (h2 : lm name st.loadCalls = none) :
    (load_whisper_model lm name st).1 = none ∧
    (load_whisper_model lm name st).2.loaded_models = st.loaded_models ∧
    (load_whisper_model lm name (load_whisper_model lm name st).2).1 =
      lm name (st.loadCalls + 1) ∧
    ∀ (lm2 : String → Nat → Option Nat) (names : List String),
      goodMapping lm2 (runCalls lm2 names ⟨[], 0⟩).2.loaded_models := by
  have e1 := load_miss_fail lm name st h1 h2
  refine ⟨by rw [e1], by rw [e1], ?_, ?_⟩
  · rw [e1]
    cases hlm2 : lm name (st.loadCalls + 1) with
    | some inst =>
      rw [load_miss_ok lm name ⟨st.loaded_models, st.loadCalls + 1⟩ inst h1 hlm2]
    | none =>
      rw [load_miss_fail lm name ⟨st.loaded_models, st.loadCalls + 1⟩ h1 hlm2]
  · intro lm2 names
    exact goodMapping_runCalls lm2 names ⟨[], 0⟩ (by intro p hp; cases hp)

/-- Witness for C2 at a concrete input: with an always-failing engine the
first fetch of "base" returns `none`, the mapping stays empty, and the next
fetch performs invocation number 1 of the load capability. -/
theorem registry_no_entry_on_failure_witness :
    (load_whisper_model lmFail "base" ⟨[], 0⟩).1 = none ∧
    (load_whisper_model lmFail "base" ⟨[], 0⟩).2.loaded_models =
      ([] : List (String × Nat)) ∧
    (load_whisper_model lmFail "base" (load_whisper_model lmFail "base" ⟨[], 0⟩).2).1 =
      lmFail "base" (0 + 1) :=
  ⟨(registry_no_entry_on_failure lmFail "base" ⟨[], 0⟩ rfl rfl).1,
   (registry_no_entry_on_failure lmFail "base" ⟨[], 0⟩ rfl rfl).2.1,
   (registry_no_entry_on_failure lmFail "base" ⟨[], 0⟩ rfl rfl).2.2.1⟩

/-- Once an identifier is cached, any number of further serialized requests
for it return the cached instance and leave the state untouched. -/
theorem runCalls_cached (lm : String → Nat → Option Nat) (name : String)
    (m : Nat) : ∀ (N : Nat) (st : RegState),
    st.loaded_models.lookup name = some m →
    runCalls lm (List.replicate N name) st = (List.replicate N (some m), st) := by
  intro N
  induction N with
  | zero => intro st h; simp [runCalls]
  | succ n ih =>
    intro st h
    simp [List.replicate_succ, runCalls, load_hit lm name st m h, ih st h]

/-- With an engine whose every load attempt raises, N serialized requests
for an uncached identifier each invoke the load capability once, all get
`none`, and the mapping is unchanged. -/
theorem runCalls_all_fail (lm : String → Nat → Option Nat) (name : String)
    (hfail : ∀ k, lm name k = none) : ∀ (N : Nat) (st : RegState),
    st.loaded_models.lookup name = none →
    runCalls lm (List.replicate N name) st =
      (List.replicate N none, ⟨st.loaded_models, st.loadCalls + N⟩) := by
  intro N
  induction N with
  | zero => intro st h; simp [runCalls]
  | succ n ih =>
    intro st h
    have e1 := load_miss_fail lm name st h (hfail st.loadCalls)
    have e2 := ih ⟨st.loaded_models, st.loadCalls + 1⟩ h
    simp [List.replicate_succ, runCalls, e1, e2]
    omega

/-- C3 counterexample: two serialized first-time requests for "base" with an
always-failing engine invoke the load capability twice (the second caller,
finding no cached entry, re-attempts the load), not exactly once as the
claim states. -/
theorem concurrent_load_once_counterexample :
    (runCalls lmFail (List.replicate 2 "base") ⟨[], 0⟩).2.loadCalls = 2 ∧
    ¬ (runCalls lmFail (List.replicate 2 "base") ⟨[], 0⟩).2.loadCalls = 1 := by
  constructor
  · rfl
  · intro h
    rw [show (runCalls lmFail (List.replicate 2 "base") ⟨[], 0⟩).2.loadCalls = 2
      from rfl] at h
    omega

/-- C3 (amended): `model_lock` serializes the callers, so N first-time
requests for the same identifier run as N sequential registry calls; when
the first load succeeds the load capability is invoked exactly once and all
N callers receive that same instance; when every load attempt fails, each
caller invokes the load capability once (N invocations in total, failure not
being cached), all N receive the failure signal `none`, and no mapping entry
for the identifier exists afterward. -/
theorem concurrent_load_serialized (lm : String → Nat → Option Nat)
    (name : String) (st : RegState) (N : Nat) (hN : 1 ≤ N)
    (hfresh : st.loaded_models.lookup name = none) :
    (∀ m, lm name st.loadCalls = some m →
      (runCalls lm (List.replicate N name) st).2.loadCalls = st.loadCalls + 1 ∧
      ∀ r ∈ (runCalls lm (List.replicate N name) st).1, r = some m) ∧
    ((∀ k, lm name k = none) →
      (∀ r ∈ (runCalls lm (List.replicate N name) st).1, r = none) ∧
      (runCalls lm (List.replicate N name) st).2.loaded_models.lookup name = none ∧
      (runCalls lm (List.replicate N name) st).2.loadCalls = st.loadCalls + N) := by
  constructor
  · intro m hm
    obtain ⟨n, rfl⟩ : ∃ n, N = n + 1 := ⟨N - 1, by omega⟩
    have e1 := load_miss_ok lm name st m hfresh hm
    have e2 := runCalls_cached lm name m n
      ⟨(name, m) :: st.loaded_models, st.loadCalls + 1⟩ (by simp [List.lookup])
    constructor
    · simp [List.replicate_succ, runCalls, e1, e2]
    · intro r hr
      simp only [List.replicate_succ, runCalls, e1, e2] at hr
      rcases List.mem_cons.mp hr with h1 | h2
      · exact h1
      · exact List.eq_of_mem_replicate h2
  · intro hfail
    have e := runCalls_all_fail lm name hfail N st hfresh
    refine ⟨?_, ?_, ?_⟩
    · intro r hr
      rw [e] at hr
      exact List.eq_of_mem_replicate hr
    · rw [e]
      exact hfresh
    · rw [e]

/-- Witness for C3 (amended) at a concrete input: three serialized
first-time requests with a succeeding engine perform exactly one invocation
of the load capability. -/
theorem concurrent_load_serialized_witness :
    (runCalls lmSeq (List.replicate 3 "base") ⟨[], 0⟩).2.loadCalls = 0 + 1 :=
  ((concurrent_load_serialized lmSeq "base" ⟨[], 0⟩ 3 (by decide) rfl).1 100 rfl).1

/-- The 503 body produced on load failure mentions that the model is not
available or failed to load. -/
theorem mentions_unavailable (a : String) :
    mentions ("Whisper model '" ++ a ++ "' is not available or failed to load.")
      "not available or failed to load" := by
  refine ⟨"Whisper model '" ++ a ++ "' is ", ".", ?_⟩
  apply String.ext
  simp [String.data_append, List.append_assoc]

/-- The 503 body produced on load failure mentions the selected identifier. -/
theorem mentions_identifier (a : String) :
    mentions ("Whisper model '" ++ a ++ "' is not available or failed to load.") a := by
  refine ⟨"Whisper model '", "' is not available or failed to load.", ?_⟩
  apply String.ext
  simp [String.data_append, List.append_assoc]

/-- The 500 body carries the underlying exception's message verbatim. -/
theorem mentions_internal (e : String) :
    mentions ("An internal error occurred during transcription: " ++ e) e := by
  refine ⟨"An internal error occurred during transcription: ", "", ?_⟩
  apply String.ext
  simp [String.data_append, List.append_assoc]

/-- On every path through the handler, the registry state it leaves behind
is the one produced by calling the registry with the selected identifier. -/
theorem transcribe_audio_reg (env : HandlerEnv) (req : TranscribeRequest)
    (st : RegState) :
    (transcribe_audio env req st).reg =
      (load_whisper_model env.lm (select_model req.model_name) st).2 := by
  unfold transcribe_audio
  cases hp : (load_whisper_model env.lm (select_model req.model_name) st).1 with
  | none => simp [hp]
  | some mdl =>
    cases ha : req.audio_file with
    | none => simp [hp, ha]
    | some filename =>
      by_cases hf : filename = ""
      · simp [hp, ha, hf]
      · cases hs : env.saveExc with
        | some e => simp [hp, ha, hf, hs]
        | none =>
          cases ht : env.transcribe mdl env.tmpPath with
          | error e => simp [hp, ha, hf, hs, ht]
          | ok t => simp [hp, ha, hf, hs, ht]

/-- Whenever the handler answers 200, the reported `model_used` is the
selected identifier, never the raw caller input. -/
theorem transcribe_audio_model_used (env : HandlerEnv) (req : TranscribeRequest)
    (st : RegState) (text mu : String)
    (h : (transcribe_audio env req st).body = RespBody.ok text mu) :
    mu = select_model req.model_name := by
  unfold transcribe_audio at h
  cases hp : (load_whisper_model env.lm (select_model req.model_name) st).1 with
  | none => simp [hp] at h
  | some mdl =>
    cases ha : req.audio_file with
    | none => simp [hp, ha] at h
    | some filename =>
      by_cases hf : filename = ""
      · simp [hp, ha, hf] at h
      · cases hs : env.saveExc with
        | some e => simp [hp, ha, hf, hs] at h
        | none =>
          cases ht : env.transcribe mdl env.tmpPath with
          | error e => simp [hp, ha, hf, hs, ht] at h
          | ok t =>
            simp [hp, ha, hf, hs, ht] at h
            exact h.2.symm

/-- C4: the selected identifier is the default when the `model_name` field
is absent, the default when the supplied name is outside the allow-list
(and then it differs from the raw input, which is never used), and the
supplied name itself when it is in the allow-list; the handler passes
exactly the selected identifier to the registry and reports it as
`model_used`. -/
theorem handler_model_selection :
    select_model none = DEFAULT_MODEL ∧
    (∀ m, m ∉ ALLOWED_MODELS →
      select_model (some m) = DEFAULT_MODEL ∧ select_model (some m) ≠ m) ∧
    (∀ m, m ∈ ALLOWED_MODELS → select_model (some m) = m) ∧
    (∀ env req st, (transcribe_audio env req st).reg =
      (load_whisper_model env.lm (select_model req.model_name) st).2) ∧
    (∀ env req st text mu,
      (transcribe_audio env req st).body = RespBody.ok text mu →
      mu = select_model req.model_name) := by
  refine ⟨by decide, ?_, ?_, transcribe_audio_reg, transcribe_audio_model_used⟩
  · intro m hm
    have hsel : select_model (some m) = DEFAULT_MODEL := by
      simp [select_model, hm]
    refine ⟨hsel, ?_⟩
    rw [hsel]
    intro heq
    exact hm (heq ▸ (by decide : DEFAULT_MODEL ∈ ALLOWED_MODELS))
  · intro m hm
    simp [select_model, hm]

/-- Witness for C4 at concrete inputs: the invalid name "not-a-real-model"
is replaced by the default "base" and is itself never selected. -/
theorem handler_model_selection_witness :
    select_model (some "not-a-real-model") = DEFAULT_MODEL ∧
    select_model (some "not-a-real-model") ≠ "not-a-real-model" :=
  handler_model_selection.2.1 "not-a-real-model" (by decide)

/-- C5 counterexample: on a failed load the registry returns the bare
absence value `none`; the value is the same for two different identifiers,
so the returned signal carries neither the identifier nor the underlying
cause (both are only logged). -/
theorem registry_load_failure_signal_counterexample :
    (load_whisper_model lmFail "base" ⟨[], 0⟩).1 = none ∧
    (load_whisper_model lmFail "base" ⟨[], 0⟩).1 =
      (load_whisper_model lmFail "tiny" ⟨[], 0⟩).1 :=
  ⟨rfl, rfl⟩

/-- C5 (amended): on a failed load the registry does not throw across its
boundary but returns plain `None` — a bare absence value carrying neither
the identifier nor the cause, which are only logged; the identifier reaches
the caller through the handler, whose 503 error mentions the selected
identifier. -/
theorem registry_failure_returns_bare_none (lm : String → Nat → Option Nat)
    (name : String) (st : RegState)
    (h1 : st.loaded_models.lookup name = none)
    (h2 : lm name st.loadCalls = none) :
    (load_whisper_model lm name st).1 = none ∧
    ∀ env req st2,
      (load_whisper_model env.lm (select_model req.model_name) st2).1 = none →
      ∃ msg, (transcribe_audio env req st2).body = RespBody.err msg ∧
        mentions msg (select_model req.model_name) := by
  refine ⟨by rw [load_miss_fail lm name st h1 h2], ?_⟩
  intro env req st2 hp
  refine ⟨"Whisper model '" ++ select_model req.model_name ++
    "' is not available or failed to load.", ?_, mentions_identifier _⟩
  simp [transcribe_audio, hp]

/-- Witness for C5 (amended) at a concrete input: the failed fetch of
"base" returns `none`. -/
theorem registry_failure_returns_bare_none_witness :
    (load_whisper_model lmFail "base" ⟨[], 0⟩).1 = none :=
  (registry_failure_returns_bare_none lmFail "base" ⟨[], 0⟩ rfl rfl).1

/-- C7: whenever the selected model fails to load, the handler answers 503
with an error body mentioning that the model is not available or failed to
load. -/
theorem handler_503_on_load_failure (env : HandlerEnv) (req : TranscribeRequest)
    (st : RegState)
    (h : (load_whisper_model env.lm (select_model req.model_name) st).1 = none) :
    (transcribe_audio env req st).status = 503 ∧
    ∃ msg, (transcribe_audio env req st).body = RespBody.err msg ∧
      mentions msg "not available or failed to load" := by
  refine ⟨by simp [transcribe_audio, h], ?_⟩
  refine ⟨"Whisper model '" ++ select_model req.model_name ++
    "' is not available or failed to load.", ?_, mentions_unavailable _⟩
  simp [transcribe_audio, h]

/-- Witness for C7 at a concrete input: with an always-failing engine a
request for "base" gets status 503. -/
theorem handler_503_on_load_failure_witness :
    (transcribe_audio envFail ⟨some "base", some "a.wav"⟩ ⟨[], 0⟩).status = 503 :=
  (handler_503_on_load_failure envFail ⟨some "base", some "a.wav"⟩ ⟨[], 0⟩ rfl).1

/-- C8: once the selected model has loaded successfully, a request without
an `audio_file` part gets 400 with an error mentioning the missing audio
file part, and a request whose `audio_file` has an empty filename gets 400
with an error mentioning the empty filename. -/
theorem handler_400_on_bad_upload (env : HandlerEnv) (req : TranscribeRequest)
    (st : RegState) (mdl : Nat)
    (hm : (load_whisper_model env.lm (select_model req.model_name) st).1 = some mdl) :
    (req.audio_file = none →
      (transcribe_audio env req st).status = 400 ∧
      ∃ msg, (transcribe_audio env req st).body = RespBody.err msg ∧
        mentions msg "No audio file part") ∧
    (req.audio_file = some "" →
      (transcribe_audio env req st).status = 400 ∧
      ∃ msg, (transcribe_audio env req st).body = RespBody.err msg ∧
        mentions msg "empty filename") := by
  constructor
  · intro ha
    refine ⟨by simp [transcribe_audio, hm, ha], ?_⟩
    refine ⟨"No audio file part in the request", by simp [transcribe_audio, hm, ha], ?_⟩
    exact ⟨"", " in the request", by decide⟩
  · intro ha
    refine ⟨by simp [transcribe_audio, hm, ha], ?_⟩
    refine ⟨"No selected audio file (empty filename)",
      by simp [transcribe_audio, hm, ha], ?_⟩
    exact ⟨"No selected audio file (", ")", by decide⟩

/-- Witness for C8 at concrete inputs: with a loaded model, a request
without an audio part gets 400, and one with an empty filename gets 400. -/
theorem handler_400_on_bad_upload_witness :
    (transcribe_audio envOk ⟨some "base", none⟩ ⟨[], 0⟩).status = 400 ∧
    (transcribe_audio envOk ⟨some "base", some ""⟩ ⟨[], 0⟩).status = 400 :=
  ⟨((handler_400_on_bad_upload envOk ⟨some "base", none⟩ ⟨[], 0⟩ 100 rfl).1 rfl).1,
   ((handler_400_on_bad_upload envOk ⟨some "base", some ""⟩ ⟨[], 0⟩ 100 rfl).2 rfl).1⟩

/-- C9: with a loaded model and a non-empty upload, if saving the upload
raises, or if the transcription call raises, the handler answers 500 with an
error body that contains the underlying exception's message verbatim. -/
theorem handler_500_includes_message (env : HandlerEnv) (req : TranscribeRequest)
    (st : RegState) (mdl : Nat) (filename e : String)
    (hm : (load_whisper_model env.lm (select_model req.model_name) st).1 = some mdl)
    (ha : req.audio_file = some filename) (hf : ¬ filename = "") :
    (env.saveExc = some e →
      (transcribe_audio env req st).status = 500 ∧
      ∃ msg, (transcribe_audio env req st).body = RespBody.err msg ∧
        mentions msg e) ∧
    (env.saveExc = none → env.transcribe mdl env.tmpPath = Except.error e →
      (transcribe_audio env req st).status = 500 ∧
      ∃ msg, (transcribe_audio env req st).body = RespBody.err msg ∧
        mentions msg e) := by
  constructor
  · intro hs
    refine ⟨by simp [transcribe_audio, hm, ha, hf, hs], ?_⟩
    refine ⟨"An internal error occurred during transcription: " ++ e,
      by simp [transcribe_audio, hm, ha, hf, hs], mentions_internal e⟩
  · intro hs ht
    refine ⟨by simp [transcribe_audio, hm, ha, hf, hs, ht], ?_⟩
    refine ⟨"An internal error occurred during transcription: " ++ e,
      by simp [transcribe_audio, hm, ha, hf, hs, ht], mentions_internal e⟩

/-- Witness for C9 at a concrete input: a request whose upload save raises
"disk full" gets status 500. -/
theorem handler_500_includes_message_witness :
    (transcribe_audio envSaveFail ⟨some "base", some "a.wav"⟩ ⟨[], 0⟩).status = 500 :=
  ((handler_500_includes_message envSaveFail ⟨some "base", some "a.wav"⟩ ⟨[], 0⟩
    100 "a.wav" "disk full" rfl rfl (by decide)).1 rfl).1

/-- C10 (implicit): the handler resolves and loads the model before any
validation of the upload, so when the selected model fails to load a request
without an `audio_file` part (or with an empty filename) gets 503, not 400;
conversely a 400 response implies the model had loaded successfully. -/
theorem handler_loads_model_before_validation (env : HandlerEnv)
    (req : TranscribeRequest) (st : RegState)
    (h : (load_whisper_model env.lm (select_model req.model_name) st).1 = none)
    (ha : req.audio_file = none ∨ req.audio_file = some "") :
    ((transcribe_audio env req st).status = 503 ∧
      ¬ (transcribe_audio env req st).status = 400) ∧
    ∀ env2 req2 st2, (transcribe_audio env2 req2 st2).status = 400 →
      (load_whisper_model env2.lm (select_model req2.model_name) st2).1.isSome := by
  constructor
  · refine ⟨by simp [transcribe_audio, h], ?_⟩
    intro hc
    rw [show (transcribe_audio env req st).status = 503 from by
      simp [transcribe_audio, h]] at hc
    omega
  · intro env2 req2 st2 h400
    cases hp : (load_whisper_model env2.lm (select_model req2.model_name) st2).1 with
    | none =>
      rw [show (transcribe_audio env2 req2 st2).status = 503 from by
        simp [transcribe_audio, hp]] at h400
      omega
    | some mdl => rfl

/-- Witness for C10 at a concrete input: a request with no audio part whose
model fails to load gets 503 and not 400. -/
theorem handler_loads_model_before_validation_witness :
    (transcribe_audio envFail ⟨some "base", none⟩ ⟨[], 0⟩).status = 503 ∧
    ¬ (transcribe_audio envFail ⟨some "base", none⟩ ⟨[], 0⟩).status = 400 :=
  (handler_loads_model_before_validation envFail ⟨some "base", none⟩ ⟨[], 0⟩
    rfl (Or.inl rfl)).1

/-- C6 (code bug): a request with a loaded model and a non-empty filename
whose `audio_file.save` raises.  `tempfile.NamedTemporaryFile(delete=False)`
has already created the temp file on disk, but `temp_audio_path` (assigned
only after `save` returns, src/app.py line 77) is still `None` in the
`finally` block, so the removal on line 99 is skipped: the handler returns
the determined 500, yet the temporary file remains on disk, contradicting
the unconditional-cleanup claim. -/
theorem temp_file_leak_on_save_failure :
    (transcribe_audio envSaveFail ⟨some "base", some "a.wav"⟩ ⟨[], 0⟩).status = 500 ∧
    (transcribe_audio envSaveFail ⟨some "base", some "a.wav"⟩ ⟨[], 0⟩).tempFileRemains
      = true :=
  ⟨rfl, rfl⟩
